import Mathlib

set_option maxHeartbeats 1000000
set_option maxRecDepth 4000

/- Shallow embedding of src/telegram/lambda_function.py, the conversation
   state machine of a Telegram insurance chatbot running as an AWS Lambda
   webhook.  Python strings are modeled as String or List Char, Python
   dicts as insertion-ordered association lists.  External collaborators
   (profile store, Telegram transport, quote/PDF/document/chat services)
   are oracles supplied through the Entorno structure, following the
   narrow interfaces of spec section 6. -/

/-- Python dict with string keys and values: an insertion-ordered
association list whose keys are unique. -/
abbrev Dict := List (String × String)

/-- Lookup, as Python dict access and dict.get. -/
def dictGet : Dict → String → Option String
  | [], _ => none
  | (k0, v) :: resto, k => if k0 = k then some v else dictGet resto k

/-- Membership, as the Python `in` test on a dict. -/
def dictMem (d : Dict) (k : String) : Bool := (dictGet d k).isSome

/-- Assignment d[k] = v: replaces the value of an existing key in place,
otherwise appends the new key at the end. -/
def dictInsert : Dict → String → String → Dict
  | [], k, v => [(k, v)]
  | (k0, v0) :: resto, k, v =>
      if k0 = k then (k0, v) :: resto else (k0, v0) :: dictInsert resto k v

/-- Python str.lower, modeled on the ASCII range (the engine only matches
ASCII keywords; accented Spanish letters in the tables are already lower
case). -/
def pyLower (s : String) : String := String.mk (s.data.map Char.toLower)

/-- Python str.startswith. -/
def empiezaCon (s pre : String) : Bool := pre.data.isPrefixOf s.data

/-- Python str.endswith. -/
def terminaEn (s suf : String) : Bool := suf.data.isSuffixOf s.data

/-- The default whitespace set of Python str.strip. -/
def esBlanco (c : Char) : Bool :=
  c = ' ' || c = '\t' || c = '\n' || c = '\r' || c = '\x0b' || c = '\x0c'

/-- Python str.strip on a character list. -/
def pyStripL (s : List Char) : List Char :=
  ((s.dropWhile esBlanco).reverse.dropWhile esBlanco).reverse

/-- Python str.strip. -/
def pyStrip (s : String) : String := String.mk (pyStripL s.data)

/-- Python str.title, modeled on the ASCII range: a letter is uppercased
when the previous character is not a letter, lowercased otherwise. -/
def pyTitleL : Bool → List Char → List Char
  | _, [] => []
  | prev, c :: cs =>
      if c.isAlpha then (if prev then c.toLower else c.toUpper) :: pyTitleL true cs
      else c :: pyTitleL false cs

/-- Python str.title. -/
def pyTitle (s : String) : String := String.mk (pyTitleL false s.data)

/-- Python str.rfind of a single character over s[0:fin].  rfindAux walks the
list and returns the highest index (shifted by i) holding the character,
or -1 when it is absent. -/
def rfindAux (c : Char) : List Char → Nat → Int
  | [], _ => -1
  | x :: xs, i =>
      let r := rfindAux c xs (i + 1)
      if r ≠ -1 then r else if x = c then (i : Int) else -1

/-- Python mensaje.rfind(c, 0, fin): highest index below fin holding the
character c, or -1. -/
def rfindChar (s : List Char) (c : Char) (fin : Nat) : Int :=
  rfindAux c (s.take fin) 0

/-- One iteration of the dividir_mensaje loop body (lines 475 to 482 of the
source): cut at the last space before the limit; failing that, at one past
the last period before the limit, where rfind = -1 makes corte = -1 + 1 = 0,
so the third branch, the hard cut at the limit guarded by corte == -1, can
never fire; both slices are stripped. -/
def dividirPaso (maxLength : Nat) (mensaje : List Char) : List Char × List Char :=
  let corte0 : Int := rfindChar mensaje ' ' maxLength
  let corte1 : Int := if corte0 = -1 then rfindChar mensaje '.' maxLength + 1 else corte0
  let corte2 : Int := if corte1 = -1 then (maxLength : Int) else corte1
  (pyStripL (mensaje.take corte2.toNat), pyStripL (mensaje.drop corte2.toNat))

/-- Fuel-indexed run of the dividir_mensaje while loop (lines 473 to 484).
A result of none means the fuel ran out; on a stuck state (the loop body
returns the message unchanged) the Python loop never terminates, because the
loop state repeats exactly.  The final remainder is appended after the
loop, as in the source. -/
def dividirFuel (maxLength : Nat) : Nat → List Char → Option (List (List Char))
  | 0, _ => none
  | fuel + 1, mensaje =>
      if mensaje.length > maxLength then
        (dividirFuel maxLength fuel (dividirPaso maxLength mensaje).2).map
          (fun ts => (dividirPaso maxLength mensaje).1 :: ts)
      else some [mensaje]

/-- dividir_mensaje run with fuel length + 1, which is enough for every
terminating run of the source loop: an iteration that does not shrink the
message leaves the loop state unchanged and therefore loops forever. -/
def dividir_mensaje (mensaje : String) (maxLength : Nat) : Option (List String) :=
  (dividirFuel maxLength (mensaje.data.length + 1) mensaje.data).map
    (fun ts => ts.map (fun t => String.mk t))

/-- Decimal digit test (48 to 57 are the code points of 0 to 9). -/
def esDigito (c : Char) : Bool := 48 ≤ c.toNat && c.toNat ≤ 57

/-- Numeric value of a digit character. -/
def valDigito (c : Char) : Nat := c.toNat - 48

/-- Maximal run of leading digit characters, with the remaining input. -/
def leeDigitos : List Char → List Char × List Char
  | [] => ([], [])
  | c :: cs =>
      if esDigito c then (c :: (leeDigitos cs).1, (leeDigitos cs).2)
      else ([], c :: cs)

/-- Decimal value of a digit run. -/
def valorDe (ds : List Char) : Nat := ds.foldl (fun a c => 10 * a + valDigito c) 0

/-- Leap year rule of the datetime module. -/
def esBisiesto (y : Nat) : Bool := y % 4 = 0 && (y % 100 ≠ 0 || y % 400 = 0)

/-- Days in a month, as validated by the datetime constructor. -/
def diasDelMes (m y : Nat) : Nat :=
  if m = 2 then (if esBisiesto y then 29 else 28)
  else if m = 4 ∨ m = 6 ∨ m = 9 ∨ m = 11 then 30 else 31

/-- datetime.strptime with format %d sep %m sep %Y, sep being the literal
separator character: the day and month are runs of 1 or 2 digits in range,
the year exactly 4 digits, the whole string must be consumed, and the day
must exist in the month and the year be at least 1, as enforced by the
datetime constructor (ValueError otherwise).  This models the CPython
_strptime regular expression for %d, %m, %Y together with its
backtracking: at most one split of a digit run against the following
literal separator can succeed, so the maximal-run reading is exact. -/
def strptimeDMY (sep : Char) (s : List Char) : Option (Nat × Nat × Nat) :=
  let pd := leeDigitos s
  let d := valorDe pd.1
  if (pd.1.length = 1 ∨ pd.1.length = 2) ∧ 1 ≤ d ∧ d ≤ 31 then
    match pd.2 with
    | [] => none
    | c1 :: s1 =>
        if c1 = sep then
          let pm := leeDigitos s1
          let m := valorDe pm.1
          if (pm.1.length = 1 ∨ pm.1.length = 2) ∧ 1 ≤ m ∧ m ≤ 12 then
            match pm.2 with
            | [] => none
            | c2 :: s2 =>
                if c2 = sep then
                  let py := leeDigitos s2
                  let y := valorDe py.1
                  if py.1.length = 4 ∧ py.2 = [] then
                    if 1 ≤ y ∧ d ≤ diasDelMes m y then some (d, m, y) else none
                  else none
                else none
          else none
        else none
  else none

/-- validar_fecha (lines 67 to 86): tries %d-%m-%Y and then %d/%m/%Y,
returning the parsed date, or none where the source returns None. -/
def validar_fecha (cadena_fecha : String) : Option (Nat × Nat × Nat) :=
  match strptimeDMY '-' cadena_fecha.data with
  | some f => some f
  | none => strptimeDMY '/' cadena_fecha.data

/-- Decimal digit character of k mod 10. -/
def dchar (k : Nat) : Char :=
  match k % 10 with
  | 0 => '0' | 1 => '1' | 2 => '2' | 3 => '3' | 4 => '4'
  | 5 => '5' | 6 => '6' | 7 => '7' | 8 => '8' | _ => '9'

/-- Two-digit zero-padded rendering, as the %d and %m of strftime. -/
def pad2 (n : Nat) : List Char := [dchar (n / 10), dchar n]

/-- Four-digit zero-padded rendering, as the %Y of strftime. -/
def pad4 (n : Nat) : List Char := [dchar (n / 1000), dchar (n / 100), dchar (n / 10), dchar n]

/-- strftime with format %Y-%m-%d applied to a parsed date. -/
def sqlDeFecha (d m y : Nat) : String :=
  String.mk (pad4 y ++ '-' :: (pad2 m ++ '-' :: pad2 d))

/-- fecha_sql (lines 88 to 105): same two formats tried in the same order,
the accepted date rendered as %Y-%m-%d, None on failure. -/
def fecha_sql (cadena_fecha : String) : Option String :=
  match strptimeDMY '-' cadena_fecha.data with
  | some f => some (sqlDeFecha f.1 f.2.1 f.2.2)
  | none =>
      match strptimeDMY '/' cadena_fecha.data with
      | some f => some (sqlDeFecha f.1 f.2.1 f.2.2)
      | none => none

/-- A date that the datetime constructor accepts: day in the month, month
1 to 12, year 1 to 9999. -/
def fechaCalendarioValida (d m y : Nat) : Bool :=
  decide (1 ≤ d ∧ d ≤ diasDelMes m y ∧ 1 ≤ m ∧ m ≤ 12 ∧ 1 ≤ y ∧ y ≤ 9999)

/-- A calendar date rendered with zero padding and the given separator, in
day month year order. -/
def renderFecha (sep : Char) (d m y : Nat) : String :=
  String.mk (pad2 d ++ sep :: (pad2 m ++ sep :: pad4 y))

/-- correo_es_valido (lines 52 to 65): re.match of pattern
one-or-more-non-arroba, arroba, one-or-more-non-arroba, period,
one-or-more-non-arroba, as a prefix match.  The arroba matched is
necessarily the first one; the rest of the pattern lives inside the
maximal non-arroba run that follows it, with a period that has at least
one character on each side inside that run. -/
def correo_es_valido (correo : String) : Bool :=
  let cs := correo.data
  let antes := cs.takeWhile (fun c => c ≠ '@')
  let resto := cs.dropWhile (fun c => c ≠ '@')
  match resto with
  | [] => false
  | _ :: despues =>
      let segmento := despues.takeWhile (fun c => c ≠ '@')
      decide (1 ≤ antes.length) && ((segmento.drop 1).dropLast.contains '.')

/-- parentesco_valido (lines 431 to 435): case-insensitive membership of the
stripped input in the fixed kinship set. -/
def parentesco_valido (cadena : String) : Bool :=
  ["madre", "padre", "esposo", "esposa", "hijo", "hija", "hermano", "hermana"].contains
    (pyLower (pyStrip cadena))

/-- modelo_es_valido (lines 171 to 172) applied to a string value: a
non-blank string. -/
def modelo_es_valido (model : String) : Bool := pyStrip model ≠ ""

/-- The paso_default argument of agregar_opciones: a single step or a
per-option table. -/
inductive PasoDefault where
  | paso (s : String)
  | tabla (d : Dict)

/-- Line 461 to 462 of agregar_opciones: a non-dict default is expanded to
the table sending the lowered option to the default step. -/
def pasoDefaultNormalizado (opciones : List String) : PasoDefault → Dict
  | .tabla d => d
  | .paso p => opciones.foldl (fun acc o => dictInsert acc (pyLower o) p) []

/-- agregar_opciones (lines 460 to 470): for every option, assign its
lowered form to the step the normalized table gives it, defaulting to
start.  An empty incoming dict and the fresh dict of the source coincide
in this model. -/
def agregar_opciones (historial : Dict) (opciones : List String)
    (paso_default : PasoDefault) : Dict :=
  let tabla := pasoDefaultNormalizado opciones paso_default
  opciones.foldl
    (fun acc o => dictInsert acc (pyLower o) ((dictGet tabla (pyLower o)).getD "start"))
    historial

/-- An outbound action, one call of enviar_mensaje_telegram: plain text,
text with inline buttons, text with a one-time keyboard of options, or a
document with a caption. -/
inductive Accion where
  | texto (t : String)
  | conBotones (t : String) (bs : Dict)
  | menu (t : String) (ops : List String)
  | documento (t : String) (url : String) (archivo : Option String)

deriving instance DecidableEq for Accion

/-- Ways a turn can abort with an uncaught Python exception. -/
inductive ErrorTurno where
  | nombreNoDefinido
  | errorHttp
  | sinTerminar

deriving instance DecidableEq for ErrorTurno

/-- The per-user profile record stored in DynamoDB.  Fields with a default
are the ones every fresh profile carries (line 664 and 669 to 671); the
Option fields are keys the source adds only along some paths. -/
structure Usuario where
  step : String := "start"
  monto : String := ""
  nombre : String := ""
  fecha : String := ""
  modo : String := "normal"
  cotiza : String := ""
  rol : Option String := none
  master : Option String := none
  developer : Option String := none
  historial : Option Dict := none
  model : Option String := none
  poliza : Option String := none
  email : Option String := none
  sexo : Option String := none
  beneficiario : Option String := none
  parentesco : Option String := none
  bfecha : Option String := none
  bcuenta : Option Nat := none
  plan : Option String := none
  monto2 : Option String := none
  monto3 : Option String := none
  categoria : Option String := none
  subcategoria : Option String := none
  documents : Option Dict := none
  companies : Option (List String) := none
  opciones : Option (List String) := none
  basePath : Option String := none

deriving instance DecidableEq for Usuario

/-- The mutable locals of one turn that feed the final send of line 1295:
respuesta text, botones, url_pdf, pdf_file and opciones. -/
structure Locales where
  respuesta : Option String := none
  botones : Dict := []
  urlPdf : Option String := none
  pdfArchivo : Option String := none
  opciones : List String := []

deriving instance DecidableEq for Locales

/-- What the source elegir_documento returns: a listing, a single document
url, or something else, always together with a base path. -/
inductive DocElegido where
  | lista (docs : Dict) (base : Option String)
  | unico (url : String) (base : Option String)
  | otro (base : Option String)

/-- The collaborator oracles of one turn (spec section 6).  cotizar,
agregar_beneficiario and asignar_a_analista return the id field of the
service reply, empty on any caught failure (lines 330 to 423).
generar_pdf models lines 308 to 328, which re-raise HTTPError and
URLError: a failing render is an exception, not a value.
pregunta_a_chatgpt and pregunta_a_gandalf (lines 107 to 169) catch all
errors and return an apology string, so they are total.
obtener_documentos (lines 437 to 457) returns none on any error.
elegir_documento is Modelled from the spec: the function is called at
lines 1206 and 1227 but is not defined under src; per spec section 4.1 it
resolves a document taxonomy path to a listing, a single document, or an
invalid marker, with a base path.  instruccionesDeyna is the instrucciones
field of the shared operator profile, none when the profile or the field
is missing (lines 1168 to 1170). -/
structure Entorno where
  cotizar : Dict → String
  agregar_beneficiario : Dict → String
  asignar_a_analista : Dict → String
  generar_pdf : String → Except ErrorTurno String
  pregunta_a_chatgpt : String → String → String
  pregunta_a_gandalf : String → String → String
  obtener_documentos : String → Option (List String)
  elegir_documento : List String → DocElegido
  instruccionesDeyna : Option String

/-- enviar_mensaje_telegram (lines 175 to 256) reduced to the action it
performs: document, buttons, option keyboard and plain text, tried in
that order.  The bold-markup rewriting of line 190 is presentation only
and is not modeled; texts are carried verbatim. -/
def enviar_mensaje_telegram (mensaje : String) (botones : Dict)
    (urlPdf : Option String) (pdfArchivo : Option String)
    (opciones : List String) : Accion :=
  match urlPdf with
  | some u => .documento mensaje u pdfArchivo
  | none =>
      if botones ≠ [] then .conBotones mensaje botones
      else if opciones ≠ [] then .menu mensaje opciones
      else .texto mensaje

/-- The turn outcome: either an uncaught exception together with the
actions already dispatched before it, or the final profile, the final
locals and the actions dispatched inside the branch. -/
abbrev Salida := Except (ErrorTurno × List Accion) (Usuario × Locales × List Accion)

/-- The farewell text, by role (lines 1008 to 1011). -/
def despedida (rol : String) : String :=
  if rol = "admin" ∨ rol = "developer" then
    "¡Gracias por contactarme! Si necesitas más ayuda en el futuro, no dudes en escribirme."
  else
    "¡Gracias por contactarnos! Si necesitas más ayuda en el futuro, no dudes en escribirnos."

/-- The restart invitation, by role (lines 1015 to 1018). -/
def invitacionReinicio (rol : String) : String :=
  if rol = "admin" ∨ rol = "developer" then
    "¡Seguro! Solo escribeme *Hola* otra vez cuando quieras volver a consultar.."
  else
    "¡Seguro! Solo escribeme *Hola* otra vez cuando quieras volver a cotizar.."

/-- The follow-up buttons, by role (several sites, e.g. lines 992 to 1003). -/
def botonesSiNoCotiza (rol : String) : Dict :=
  if rol = "admin" ∨ rol = "developer" then
    [("Si", "Si"), ("No", "No"), ("Cotiza", "Volver")]
  else
    [("Si", "Si"), ("No", "No"), ("Cotiza", "Volver a cotizar")]

/-- The greeting of the unnamed branch (line 740 and line 1140). -/
def saludoNuevo : String :=
  "Hola, espero te encuentres bien. Soy *TUBOT*, ejecutivo virtual de *TUEMPRESA*. Es un gusto para mí atenderte para ofrecerte diferentes opciones de seguros de salud."

/-- The long named greeting (lines 747 and 760). -/
def saludoLargo (nombre : String) : String :=
  "Hola *" ++ nombre ++ "*, espero te encuentres bien. Soy *TUBOT*, ejecutivo virtual de *TUEMPRESA*. Es un gusto para mí atenderte para ofrecerte diferentes opciones de seguros de salud."

/-- The short named greeting (lines 747 and 769). -/
def saludoCorto (nombre : String) : String :=
  "Hola *" ++ nombre ++ "*, espero te encuentres bien. Soy *TUBOT*, ejecutivo virtual de *TUEMPRESA*."

/-- The admin area menu (lines 750 and 1149). -/
def opcionesAdmin : List String :=
  ["Riesgos", "Soporte al Cliente", "Administracion", "Hablar con TUBOT"]

/-- The role menu of the master branch (lines 772 to 775). -/
def opcionesMaster (developer : String) : List String :=
  if developer = "ON" then ["Usuario", "Asociado", "Master", "Desarrollador"]
  else ["Usuario", "Asociado", "Master"]

/-- The subarea menus of askedAdmin (lines 1121 to 1125). -/
def subopcionesDe (m : String) : List String :=
  if m = "administracion" then
    ["Aranceles", "Relacion Comisiones", "Pago Comisiones", "Contacto"]
  else if m = "riesgos" then
    ["Condicionados", "Métodos Pago", "Requisitos Cotizar", "Requisitos Emitir",
     "Requ. cotizar colectivo", "Requ. cotizar flota", "Solicitudes",
     "Edad de admisibilidad", "Plazos de espera"]
  else
    ["Red clinicas", "Proc. Reclamos", "Tramitar Recl.", "Contactos Emerg."]

/-- The ten companies of the company table (lines 1194 to 1199).  Note the
source table misspells the key for condicionados as conicionados, so the
lookup companies.get(mensaje) with the menu keyword condicionados yields
the empty list; this model reproduces that. -/
def companiasDe (m : String) : List String :=
  if m = "conicionados" ∨ m = "red clinicas" ∨ m = "métodos pago" ∨ m = "solicitudes" then
    ["Compania1", "Compania2", "Compania3", "Compania4", "Compania5",
     "Compania6", "Compania7", "Compania8", "Compania9", "Compania10"]
  else []

/-- Python rstrip of the slash character. -/
def quitaSlashFinal (s : String) : String :=
  String.mk (s.data.reverse.dropWhile (fun c => c = '/')).reverse

/-- Python lstrip of the slash character. -/
def quitaSlashInicial (s : String) : String :=
  String.mk (s.data.dropWhile (fun c => c = '/'))

/-- The folder expansion shared by the two arms of document_choice
(lines 1260 to 1274 and 1276 to 1290): build folder_path from base_path
and the message, strip the service prefix, list the folder, and either
re-register the listing or apologize and reset to start.  The Python
truthiness test on the listing treats None and the empty listing alike. -/
def expandirCarpeta (env : Entorno) (m : String) (u : Usuario) (l : Locales) : Salida :=
  let folder := quitaSlashFinal (u.basePath.getD "") ++ "/" ++ quitaSlashInicial m
  match env.obtener_documentos
      (folder.replace "https://YOUR_DOCUMENT_SERVICE.co/doc_asist/" "") with
  | some docs =>
      if docs ≠ [] then
        let folder2 := if terminaEn folder "/" then folder else folder ++ "/"
        let urls : Dict := docs.map (fun doc => (doc, folder2 ++ doc))
        .ok ({ u with documents := some urls,
                      historial := some (agregar_opciones (u.historial.getD [])
                        (urls.map Prod.fst) (.paso "document_choice")),
                      step := "document_choice" },
             { l with respuesta := some "Selecciona un archivo o carpeta:",
                      opciones := urls.map Prod.fst }, [])
      else
        .ok ({ u with step := "start" },
             { l with respuesta := some "Documento no válido o carpeta vacia. Intente de nuevo." }, [])
  | none =>
      .ok ({ u with step := "start" },
           { l with respuesta := some "Documento no válido o carpeta vacia. Intente de nuevo." }, [])

/-- The askedFamily branch (lines 894 to 986): two quote plus render
cycles.  Each cycle asks the quote gateway for an id, calls the PDF
renderer (whose HTTP and URL errors propagate, aborting the turn), and
then either sends the document link or an apology depending on whether
the id was empty.  The branch ends by setting modo chatgpt and step
waitForQuestion with an empty respuesta, so no final send happens.
Intermediate guardar_usuario calls are represented only through the final
persisted state. -/
def ramaFamilia (env : Entorno) (sender : String) (u : Usuario) (l : Locales) : Salida :=
  let u := { u with bcuenta := some 0 }
  let a1 := enviar_mensaje_telegram
    "Perfecto, en este momento le estoy enviando un cuadro de cotización para que proceda con su revisión."
    l.botones l.urlPdf l.pdfArchivo l.opciones
  let u := { u with plan := some "Amplio", monto := "100000", monto2 := some "200000",
                    modo := "chatgpt", step := "waitForQuestion" }
  let datos1 : Dict :=
    [("telefono", sender), ("fecha", (fecha_sql u.fecha).getD "None"),
     ("nombre", u.nombre), ("email", u.email.getD ""), ("sexo", u.sexo.getD ""),
     ("plan", "Amplio"), ("monto", "100000"), ("monto2", "200000")]
  let id1 := env.cotizar datos1
  match env.generar_pdf id1 with
  | .error e => .error (e, [a1])
  | .ok _ =>
    let paso1 : Usuario × Locales × List Accion :=
      if id1 ≠ "" then
        let l2 := { l with urlPdf := some ("https://YOUR_PDF_SERVICE.co/pdfgen/" ++ id1 ++ ".pdf"),
                           pdfArchivo := some ("Cotizacion_" ++ id1 ++ ".pdf"),
                           respuesta := some ("Tu cotización " ++ id1 ++ " ya está lista. Puedes verla aquí.") }
        ({ u with cotiza := id1 }, l2,
         [enviar_mensaje_telegram ("Tu cotización " ++ id1 ++ " ya está lista. Puedes verla aquí.")
            l2.botones l2.urlPdf l2.pdfArchivo l2.opciones])
      else
        let l2 := { l with respuesta := some "Hubo un error al procesar tu cotización.",
                           urlPdf := none }
        (u, l2,
         [enviar_mensaje_telegram "Hubo un error al procesar tu cotización."
            l2.botones l2.urlPdf l2.pdfArchivo l2.opciones])
    let u := paso1.1
    let l := { (paso1.2.1) with
                urlPdf := none,
                respuesta := some "Por otro lado, le estoy enviando otras cotizaciones que puedan adaptarse a su presupuesto" }
    let as2 := paso1.2.2
    let a3 := enviar_mensaje_telegram
      "Por otro lado, le estoy enviando otras cotizaciones que puedan adaptarse a su presupuesto"
      l.botones l.urlPdf l.pdfArchivo l.opciones
    let u := { u with monto := "50000", monto2 := some "30000", monto3 := some "20000",
                      plan := some "Amplio" }
    let datos2 : Dict :=
      [("telefono", sender), ("fecha", (fecha_sql u.fecha).getD "None"),
       ("nombre", u.nombre), ("email", u.email.getD ""), ("sexo", u.sexo.getD ""),
       ("plan", "Amplio"), ("monto", "50000"), ("monto2", "30000"), ("monto3", "20000"),
       ("bdelete", "SI")]
    let id2 := env.cotizar datos2
    match env.generar_pdf id2 with
    | .error e => .error (e, a1 :: as2 ++ [a3])
    | .ok _ =>
      let paso2 : Locales × List Accion :=
        if id2 ≠ "" then
          let l2 := { l with urlPdf := some ("https://YOUR_PDF_SERVICE.co/pdfgen/" ++ id2 ++ ".pdf"),
                             pdfArchivo := some ("Cotizacion_" ++ id2 ++ ".pdf"),
                             respuesta := some ("Tu cotización " ++ id2 ++ " ya está lista. Puedes verla aquí.") }
          (l2,
           [enviar_mensaje_telegram ("Tu cotización " ++ id2 ++ " ya está lista. Puedes verla aquí.")
              l2.botones l2.urlPdf l2.pdfArchivo l2.opciones])
        else
          let l2 := { l with respuesta := some "Hubo un error al procesar tu cotización.",
                             urlPdf := none }
          (l2,
           [enviar_mensaje_telegram "Hubo un error al procesar tu cotización."
              l2.botones l2.urlPdf l2.pdfArchivo l2.opciones])
      let l := { (paso2.1) with
                  urlPdf := none,
                  respuesta := some "Tu cotización ha sido procesada con éxito. ¿Tienes alguna otra pregunta para mí?" }
      let as4 := paso2.2
      let a5 := enviar_mensaje_telegram
        "Tu cotización ha sido procesada con éxito. ¿Tienes alguna otra pregunta para mí?"
        l.botones l.urlPdf l.pdfArchivo l.opciones
      .ok ({ u with modo := "chatgpt", step := "waitForQuestion" },
           { l with respuesta := some "" },
           a1 :: as2 ++ a3 :: as4 ++ [a5])

/-- The additionalHelp branch (lines 1006 to 1055).  The first test on the
message no is an independent if, so its updates are visible to the second
chain; on a no the mode is already normal when the final else runs, which
is why the farewell survives.  When the mode is not chatgpt the final else
is a bare pass and the turn produces no output. -/
def ramaAyudaAdicional (env : Entorno) (m rol : String) (u : Usuario) (l : Locales) : Salida :=
  let par : Usuario × Locales :=
    if m = "no" then
      ({ u with step := "finalizado", modo := "normal" },
       { l with respuesta := some (despedida rol) })
    else (u, l)
  let u := par.1
  let l := par.2
  if m = "volver a cotizar" ∨ m = "volver" ∨ empiezaCon m "hola" = true then
    .ok ({ u with step := "start", modo := "normal" },
         { l with respuesta := some (invitacionReinicio rol) }, [])
  else if m = "si" then
    if u.modo = "gandalf" then
      .ok ({ u with step := "waitForQuestion" },
           { l with respuesta := some "Pregúntame lo que quieras. Soy *Gandalf el Blanco*." }, [])
    else
      .ok ({ u with step := "waitForQuestion", modo := "chatgpt" },
           { l with respuesta := some "Por favor, escribe tu pregunta a continuación." }, [])
  else
    if u.modo = "chatgpt" then
      let r := env.pregunta_a_chatgpt m "gpt-4o"
      if r = "TOKEN_START" then
        .ok ({ u with step := "start", modo := "normal" },
             { l with respuesta := some "¡Bien! Vamos a cotizar de nuevo..." }, [])
      else if r = "TOKEN_END" then
        .ok ({ u with step := "finalizado", modo := "normal" },
             { l with respuesta := some "¡Gracias por contactarnos! Si necesitas más ayuda en el futuro, no dudes en escribirnos." }, [])
      else
        .ok ({ u with step := "confirmContinue" },
             { l with respuesta := some (r ++ "\n\n¿Tienes otra pregunta?"),
                      botones := botonesSiNoCotiza rol }, [])
    else .ok (u, l, [])

/-- The sub_category_selection branch (lines 1188 to 1225). -/
def ramaSubcategoria (env : Entorno) (m : String) (u : Usuario) (l : Locales) : Salida :=
  if u.categoria.getD "" = "administracion" ∨ u.categoria.getD "" = "riesgos"
      ∨ u.categoria.getD "" = "soporte al cliente" then
    let u := { u with subcategoria := some m }
    if m = "condicionados" ∨ m = "métodos pago" ∨ m = "solicitudes" ∨ m = "red clinicas" then
      let comps := companiasDe m
      .ok ({ u with step := "company_selection", companies := some comps,
                    historial := some (agregar_opciones (u.historial.getD [])
                      comps (.paso "company_selection")) },
           { l with respuesta := some "Selecciona una aseguradora:", opciones := comps }, [])
    else
      match env.elegir_documento [u.categoria.getD "", m] with
      | .lista docs base =>
          let ops := docs.map Prod.fst
          .ok ({ u with basePath := base, documents := some docs,
                        historial := some (agregar_opciones (u.historial.getD [])
                          ops (.paso "document_choice")),
                        step := "document_choice" },
               { l with respuesta := some "Selecciona un archivo o carpeta:", opciones := ops }, [])
      | .unico url base =>
          let urlCompleto := match base with | some b => b ++ url | none => url
          .ok ({ u with basePath := base, step := "start" },
               { l with respuesta := some "Aquí está el documento que solicitaste",
                        urlPdf := some urlCompleto,
                        pdfArchivo := some (String.mk (m.data.take 22) ++ ".pdf") }, [])
      | .otro base =>
          .ok ({ u with basePath := base },
               { l with respuesta := some "Opción no válida. Selecciona una opción válida." }, [])
  else
    .ok (u, { l with respuesta := some "Subcategoría no reconocida. Elige una opción válida." }, [])

/-- The company_selection branch (lines 1226 to 1245). -/
def ramaCompania (env : Entorno) (m : String) (u : Usuario) (l : Locales) : Salida :=
  match env.elegir_documento [u.categoria.getD "", u.subcategoria.getD "", m] with
  | .lista docs base =>
      let ops := docs.map Prod.fst
      .ok ({ u with basePath := base, documents := some docs,
                    historial := some (agregar_opciones (u.historial.getD [])
                      ops (.paso "document_choice")),
                    step := "document_choice" },
           { l with respuesta := some "Selecciona un archivo o carpeta:", opciones := ops }, [])
  | .unico url base =>
      let urlCompleto := match base with | some b => b ++ url | none => url
      .ok ({ u with basePath := base, step := "start" },
           { l with respuesta := some "Aquí está el documento que solicitaste",
                    urlPdf := some urlCompleto,
                    pdfArchivo := some (m ++ ".pdf") }, [])
  | .otro base =>
      .ok ({ u with basePath := base },
           { l with respuesta := some "Opción no válida. Selecciona una opción válida." }, [])

/-- The waitForQuestion branch (lines 1073 to 1099): anything but continuar
is forwarded to the assistant (gandalf for gandalf mode or developer role,
chatgpt otherwise, with the stored model override when valid), the reply is
segmented and each chunk sent, then the follow-up buttons are offered.  On
continuar nothing at all happens.  A non-terminating segmentation is the
stuck source loop. -/
def ramaEspera (env : Entorno) (m rol : String) (u : Usuario) (l : Locales) : Salida :=
  if m ≠ "continuar" then
    let model :=
      match u.model with
      | some mm => if modelo_es_valido mm then mm else "gpt-4o"
      | none => "gpt-4o"
    let r :=
      if u.modo = "gandalf" ∨ rol = "developer" then env.pregunta_a_gandalf m model
      else env.pregunta_a_chatgpt m model
    match dividir_mensaje r 1000 with
    | none => .error (.sinTerminar, [])
    | some ts =>
        .ok ({ u with step := "additionalHelp" },
             { l with respuesta := some "¿Tienes otra pregunta?",
                      botones := botonesSiNoCotiza rol },
             ts.map (fun t => enviar_mensaje_telegram t [] none none []))
  else .ok (u, l, [])

/-- The askedMaster branch (lines 1138 to 1163).  The four keyword tests
are independent ifs.  In the usuario arm the lines rol == user and
modo == normal are comparisons, not assignments, so they change nothing;
likewise rol == admin and modo == normal in the asociado arm and
rol == developer in the desarrollador arm, whose modo = gandalf is a real
assignment. -/
def ramaMaestro (m nombre developer : String) (u : Usuario) (l : Locales) : Salida :=
  let t1 : Usuario × Locales × List Accion :=
    if m = "usuario" then
      let a1 := enviar_mensaje_telegram saludoNuevo l.botones l.urlPdf l.pdfArchivo l.opciones
      ({ u with step := "askedWelcome" },
       { l with respuesta := some "¿Sería tan amable de darme su nombre y apellido?" }, [a1])
    else (u, l, [])
  let u := t1.1
  let l := t1.2.1
  let as := t1.2.2
  let t2 : Usuario × Locales × List Accion :=
    if m = "asociado" then
      let a2 := enviar_mensaje_telegram "¿En qué área te puedo ayudar?" [] none none opcionesAdmin
      ({ u with historial := some (agregar_opciones (u.historial.getD [])
                  opcionesAdmin (.paso "askedAdmin")),
                step := "askedAdmin" },
       { l with respuesta := some "", opciones := opcionesAdmin }, as ++ [a2])
    else (u, l, as)
  let u := t2.1
  let l := t2.2.1
  let as := t2.2.2
  let t3 : Usuario × Locales :=
    if m = "desarrollador" ∧ developer = "ON" then
      ({ u with step := "waitForQuestion", modo := "gandalf" },
       { l with respuesta := some ("Hola *" ++ nombre ++ "*, soy *TUBOTSECUNDARIO*, pregúntame lo que quieras") })
    else (u, l)
  let u := t3.1
  let l := t3.2
  if m = "master" then
    .ok ({ u with step := "askedTrainer" },
         { l with respuesta := some "¡Hola Maestro! ¿Que nueva instrucción o sugerencia quieres que aprenda?" }, as)
  else .ok (u, l, as)

/-- The askedAdmin branch (lines 1115 to 1137).  Line 1118 modo == normal
and line 1136 modo == chatgpt are comparisons, not assignments. -/
def ramaAdmin (m : String) (u : Usuario) (l : Locales) : Salida :=
  let l := { l with respuesta := some "¿En qué subárea te puedo ayudar?" }
  let u := { u with step := "start" }
  let t1 : Usuario × Locales :=
    if m = "administracion" ∨ m = "riesgos" ∨ m = "soporte al cliente" then
      let ops := subopcionesDe m
      ({ u with categoria := some m,
                historial := some (agregar_opciones (u.historial.getD [])
                  ops (.paso "sub_category_selection")),
                opciones := some ops,
                step := "sub_category_selection" },
       { l with respuesta := some "Selecciona una subcategoría:", opciones := ops })
    else (u, l)
  let u := t1.1
  let l := t1.2
  if m = "hablar con deyna" then
    let a1 := enviar_mensaje_telegram "Estoy aqui para responder tus preguntas. Adelante."
      l.botones l.urlPdf l.pdfArchivo []
    .ok ({ u with step := "waitForQuestion" },
         { l with respuesta := some "", opciones := [] }, [a1])
  else .ok (u, l, [])

/-- The transition engine: the if and elif chain of lines 736 to 1294,
run on the profile whose step was already resolved through the history
table and the master override.  sender, m (the lowered message), nombre,
rol, master and developer are the locals computed at lines 674 to 696. -/
def despacho (env : Entorno) (sender m nombre rol master developer : String)
    (u : Usuario) (l : Locales) : Salida :=
  if ¬(master = "ON") ∧ (u.step = "start" ∨ m = "hola" ∨ m = "/start")
      ∧ ¬(m = "chatgpt" ∨ m = "dr seguro") ∧ u.modo = "normal" then
    let u := { u with poliza := some "Salud", cotiza := "" }
    if nombre = "" then
      let a1 := enviar_mensaje_telegram saludoNuevo l.botones l.urlPdf l.pdfArchivo l.opciones
      .ok ({ u with step := "askedWelcome" },
           { l with respuesta := some "¿Sería tan amable de darme su nombre y apellido?" }, [a1])
    else if rol = "admin" then
      let a1 := enviar_mensaje_telegram (saludoCorto nombre) l.botones l.urlPdf l.pdfArchivo l.opciones
      let a2 := enviar_mensaje_telegram "¿En qué área te puedo ayudar?" [] none none opcionesAdmin
      .ok ({ u with historial := some (agregar_opciones (u.historial.getD [])
                      opcionesAdmin (.paso "askedAdmin")),
                    step := "askedAdmin" },
           { l with respuesta := some "", opciones := opcionesAdmin }, [a1, a2])
    else if rol = "developer" then
      .ok ({ u with step := "waitForQuestion", modo := "gandalf" },
           { l with respuesta := some ("Hola *" ++ nombre ++ "*, soy *TUBOTSECUNDARIO*, pregúntame lo que quieras") }, [])
    else
      let a1 := enviar_mensaje_telegram (saludoLargo nombre) l.botones l.urlPdf l.pdfArchivo l.opciones
      .ok ({ u with step := "askedBirthdate" },
           { l with respuesta := some "¿Sería tan amable de indicarme su fecha de nacimiento?" }, [a1])
  else if u.step = "master" then
    let u := { u with poliza := some "Salud", cotiza := "" }
    let a1 := enviar_mensaje_telegram (saludoCorto nombre) l.botones l.urlPdf l.pdfArchivo l.opciones
    let ops := opcionesMaster developer
    let a2 := enviar_mensaje_telegram "¿Con que rol quieres interactuar conmigo?" [] none none ops
    .ok ({ u with historial := some (agregar_opciones (u.historial.getD [])
                    ops (.paso "askedMaster")),
                  step := "askedMaster" },
         { l with respuesta := some "", opciones := ops }, [a1, a2])
  else if m = "chatgpt" ∨ m = "dr seguro" then
    .ok ({ u with step := "waitForQuestion" },
         { l with respuesta := some "Estoy aqui para responder tus preguntas. Adelante." }, [])
  else if u.step = "askedWelcome" ∧ u.modo = "normal" then
    let nombre2 := pyTitle m
    .ok ({ u with nombre := nombre2, step := "askedBirthdate" },
         { l with respuesta := some ("Un gusto *" ++ nombre2 ++ "*. También indícame tu fecha de nacimiento:") }, [])
  else if u.step = "askedBirthdate" then
    match validar_fecha m with
    | some _ =>
        .ok ({ u with fecha := m, step := "askedEmail" },
             { l with respuesta := some "Y ahora tu correo electrónico." }, [])
    | none =>
        .ok ({ u with step := "askedBirthdate" },
             { l with respuesta := some "La fecha no es correcta, por favor ingresa una fecha valida (DD/MM/AAAA)." }, [])
  else if u.step = "askedOnlyName" then
    let nombre2 := pyTitle m
    let poliza := u.poliza.getD ""
    let _ := env.asignar_a_analista
      [("telefono", sender), ("nombre", nombre2), ("poliza", poliza)]
    .ok ({ u with nombre := nombre2, step := "additionalHelp" },
         { l with respuesta := some ("Gracias " ++ nombre2 ++ ", voy a dirigir tu llamada a un analista para una póliza de " ++ poliza ++ ". ¿Tienes alguna otra pregunta para mí?"),
                  botones := [("Si", "Si"), ("No", "No"), ("Cotiza", "Volver a cotizar")] }, [])
  else if u.step = "askedName" then
    .ok ({ u with nombre := pyTitle m, step := "askedEmail" },
         { l with respuesta := some "Proporciona un correo electrónico para contactarte" }, [])
  else if u.step = "askedEmail" then
    if correo_es_valido m then
      .ok ({ u with email := some m, step := "askedSex" },
           { l with respuesta := some "Por último, selecciona tu género:",
                    botones := [("M", "Masculino"), ("F", "Femenino")] }, [])
    else
      .ok (u, { l with respuesta := some "El correo electrónico ingresado no es válido. Por favor, ingresa un correo electrónico válido." }, [])
  else if u.step = "askedSex" then
    .ok ({ u with sexo := some m, bcuenta := some 0, beneficiario := some "no",
                  step := "askBenefit" },
         { l with respuesta := some "¿Desea agregar a un familiar a la cotización?",
                  botones := [("Si", "Si"), ("No", "No")] }, [])
  else if u.step = "askBenefit" then
    if m = "si" then
      .ok ({ u with beneficiario := some "si", step := "askedParent" },
           { l with respuesta := some "Escribe el parentesco (Madre, Padre, Esposo, Esposa, Hijo, Hija, Hermano o Hermana):" }, [])
    else
      .ok ({ u with step := "askedFamily" },
           { l with respuesta := some "Ha elegido no agregar más familiares. Procederé a preparar su cotización.",
                    botones := [("Continuar", "Continuar")] }, [])
  else if u.step = "askedParent" then
    if parentesco_valido m then
      let parentesco := pyLower (pyStrip m)
      .ok ({ u with parentesco := some parentesco, step := "askedBirthdateParent" },
           { l with respuesta := some ("Escribe la fecha de nacimiento de tu " ++ parentesco ++ ":") }, [])
    else
      .ok (u, { l with respuesta := some "El parentesco no es correcto. Por favor, escribe alguna de estas opciones: Madre, Padre, Esposo, Esposa, Hijo, Hija, Hermano o Hermana" }, [])
  else if u.step = "askedBirthdateParent" then
    match validar_fecha m with
    | some _ =>
        let cuenta := u.bcuenta.getD 0 + 1
        let _ := env.agregar_beneficiario
          [("btoken", sender), ("bfecha", (fecha_sql m).getD "None"),
           ("bparentesco", u.parentesco.getD ""), ("correlativo", toString cuenta)]
        .ok ({ u with bfecha := some m, bcuenta := some cuenta, step := "askBenefit" },
             { l with respuesta := some "¿Desea agregar a otro familiar a la cotización?",
                      botones := [("Si", "Si"), ("No", "No")] }, [])
    | none =>
        .ok (u, { l with respuesta := some "La fecha no es correcta, por favor ingresa una fecha valida (DD/MM/AAAA)." }, [])
  else if u.step = "askedFamily" then
    ramaFamilia env sender u l
  else if u.step = "end" then
    .ok ({ u with step := "additionalHelp" },
         { l with respuesta := some (if u.poliza.getD "" = "Salud" then
                    "Tu cotización ha sido procesada con éxito. ¿Tienes alguna otra pregunta para mí?"
                  else "¿Tienes alguna otra pregunta para mí?"),
                  botones := botonesSiNoCotiza rol }, [])
  else if u.step = "additionalHelp" then
    ramaAyudaAdicional env m rol u l
  else if u.step = "endCotiza" then
    .error (.nombreNoDefinido, [])
  else if u.step = "waitForQuestion" then
    ramaEspera env m rol u l
  else if u.step = "confirmContinue" then
    let t1 : Usuario × Locales :=
      if m = "si" then
        ({ u with step := "additionalHelp", modo := "chatgpt" },
         { l with respuesta := some "¡Muy bien! Haz tu próxima pregunta." })
      else (u, l)
    let u := t1.1
    let l := t1.2
    if m = "cotiza" then
      .ok ({ u with step := "start", modo := "normal" },
           { l with respuesta := some "¡Seguro! Podemos volver a cotizar." }, [])
    else
      .ok ({ u with step := "finalizado", modo := "normal" },
           { l with respuesta := some "¡Gracias por contactarnos! Si necesitas más ayuda en el futuro, no dudes en escribirnos." }, [])
  else if u.step = "askedAdmin" then
    ramaAdmin m u l
  else if u.step = "askedMaster" then
    ramaMaestro m nombre developer u l
  else if u.step = "askedTrainer" then
    let a1 := enviar_mensaje_telegram "Memorizando. Espera un momento por favor..." [] none none []
    match env.instruccionesDeyna with
    | some _ =>
        let _ := env.pregunta_a_chatgpt "TUBOT:reborn" "gpt-4o"
        .ok ({ u with step := "master" },
             { l with respuesta := some "Mi base de conocimiento ha sido actualizada con éxito." }, [a1])
    | none =>
        .ok ({ u with step := "master" },
             { l with respuesta := some "Mi base de conocimiento no tiene instrucciones. Algo anda mal con mi servidor." }, [a1])
  else if u.step = "gandalf" then
    let a1 := enviar_mensaje_telegram "Estoy aqui para responder tus preguntas. Adelante."
      l.botones l.urlPdf l.pdfArchivo []
    .ok ({ u with step := "waitForQuestion" },
         { l with respuesta := some "", opciones := [] }, [a1])
  else if u.step = "sub_category_selection" then
    ramaSubcategoria env m u l
  else if u.step = "company_selection" then
    ramaCompania env m u l
  else if u.step = "document_choice" then
    match dictGet (u.documents.getD []) m with
    | some doc =>
        if terminaEn doc "pdf" then
          .ok ({ u with step := "start" },
               { l with respuesta := some "Aquí está el documento que solicitaste",
                        urlPdf := some doc, pdfArchivo := some m,
                        botones := [], opciones := [] }, [])
        else expandirCarpeta env m u l
    | none => expandirCarpeta env m u l
  else
    .ok ({ u with step := "start", modo := "normal" },
         { l with respuesta := some "No entiendo tu mensaje. Escribe *hola* para empezar de nuevo." }, [])

/-- The inbound event shape the core consumes (spec section 6): sender id,
message text, sender display names, and the pressed button payload when the
update carries one. -/
structure Evento where
  chatId : String
  texto : String
  firstName : String := ""
  lastName : String := ""
  boton : Option String := none

/-- The phone number of the bot itself (line 703). -/
def numero_bot : String := "YOUR_BOT_PHONE_NUMBER"

/-- The step resolved through the history table (lines 710 to 714): a
registered lowered message overrides the stored step. -/
def pasoHistorial (u : Usuario) (m : String) : String :=
  match u.historial with
  | some h =>
      match dictGet h m with
      | some s => s
      | none => u.step
  | none => u.step

/-- The master override (lines 715 to 717): a master-flagged profile whose
resolved step is start is routed to the master step. -/
def pasoConMaster (master paso : String) : String :=
  if master = "ON" ∧ paso = "start" then "master" else paso

/-- The effective display of line 685: the transport profile name fills an
empty stored name. -/
def nombreEfectivo (u : Usuario) (profileName : String) : String :=
  if ¬(profileName = "") ∧ u.nombre = "" then profileName else u.nombre

/-- The outcome of one processed webhook message: the profile as last
persisted for this sender (none if no save happened) and the ordered
outbound actions. -/
structure Resultado where
  guardado : Option Usuario
  acciones : List Accion

deriving instance DecidableEq for Resultado

/-- One full turn of lambda_handler on a message event (lines 628 to 1304):
reject an event without chat id or text; take the button payload as the
message when present; load the profile or create and save a fresh one
carrying the transport display name; compute the locals nombre, rol,
master, developer; crash on the bot own number (jsonify is not defined);
resolve the step through historial and the master override; dispatch; then
perform the final send of line 1295 when respuesta is a non-empty text, and
persist the profile. -/
def turno (env : Entorno) (almacenado : Option Usuario) (ev : Evento) :
    Except (ErrorTurno × List Accion) Resultado :=
  let profile_name := ev.firstName ++ " " ++ ev.lastName
  if ev.chatId = "" ∨ ev.texto = "" then
    .ok ⟨none, []⟩
  else
    let mensaje := ev.boton.getD ev.texto
    let usuario : Usuario :=
      match almacenado with
      | some u => u
      | none => if profile_name = "" then {} else { nombre := profile_name }
    let rol := usuario.rol.getD "user"
    let master := usuario.master.getD "OFF"
    let developer := usuario.developer.getD "OFF"
    let nombre := nombreEfectivo usuario profile_name
    let mensaje_decoded := pyLower mensaje
    if ev.chatId = numero_bot then
      .error (.nombreNoDefinido, [])
    else
      let paso := pasoConMaster master (pasoHistorial usuario mensaje_decoded)
      let usuario := { usuario with step := paso }
      match despacho env ev.chatId mensaje_decoded nombre rol master developer usuario {} with
      | .error e => .error e
      | .ok (u2, l2, as) =>
          let finales :=
            match l2.respuesta with
            | some t =>
                if t ≠ "" then
                  as ++ [enviar_mensaje_telegram t l2.botones l2.urlPdf l2.pdfArchivo l2.opciones]
                else as
            | none => as
          .ok ⟨some u2, finales⟩

/-- Step of the profile a turn persisted, for stating outcomes. -/
def pasoGuardado (r : Except (ErrorTurno × List Accion) Resultado) : Option String :=
  match r with
  | .ok x => x.guardado.map Usuario.step
  | .error _ => none

/-- Role of the profile a turn persisted. -/
def rolGuardado (r : Except (ErrorTurno × List Accion) Resultado) : Option (Option String) :=
  match r with
  | .ok x => x.guardado.map Usuario.rol
  | .error _ => none

/-- Mode of the profile a turn persisted. -/
def modoGuardado (r : Except (ErrorTurno × List Accion) Resultado) : Option String :=
  match r with
  | .ok x => x.guardado.map Usuario.modo
  | .error _ => none

/-- Actions of a completed turn, none when the turn aborted. -/
def accionesDe (r : Except (ErrorTurno × List Accion) Resultado) : Option (List Accion) :=
  match r with
  | .ok x => some x.acciones
  | .error _ => none

/-- The uncaught exception a turn aborted with, and the actions already
dispatched before it; none when the turn completed. -/
def falloDe (r : Except (ErrorTurno × List Accion) Resultado) :
    Option (ErrorTurno × List Accion) :=
  match r with
  | .ok _ => none
  | .error e => some e

/-- A neutral collaborator environment for concrete runs: quotes succeed
with id 77, renders succeed, the assistant echoes. -/
def entornoNulo : Entorno where
  cotizar := fun _ => "77"
  agregar_beneficiario := fun _ => "1"
  asignar_a_analista := fun _ => "1"
  generar_pdf := fun _ => .ok "pdf"
  pregunta_a_chatgpt := fun m _ => "R:" ++ m
  pregunta_a_gandalf := fun m _ => "G:" ++ m
  obtener_documentos := fun _ => none
  elegir_documento := fun _ => .otro none
  instruccionesDeyna := none

/-- The neutral environment with a PDF renderer whose HTTP GET fails. -/
def entornoPdfCae : Entorno := { entornoNulo with generar_pdf := fun _ => .error .errorHttp }

/-- The neutral environment with a quote gateway returning an empty id. -/
def entornoCotizaVacia : Entorno := { entornoNulo with cotizar := fun _ => "" }

/-- A profile ready for the askedFamily branch. -/
def usuarioFamilia : Usuario where
  step := "askedFamily"
  nombre := "Ana"
  fecha := "25-12-2000"
  modo := "normal"
  poliza := some "Salud"
  email := some "a@b.co"
  sexo := some "f"

/-- The continue button press that triggers askedFamily. -/
def eventoContinuar : Evento where
  chatId := "5"
  texto := "Continuar"
  firstName := "Ana"
  lastName := "X"

/-- No rule of the dispatch chain applies to this resolved step and lowered
message: the step is none of the handled ones and the message is not one
of the step-independent keywords. -/
def sinReglaEspecifica (paso m : String) : Prop :=
  paso ≠ "start" ∧ paso ≠ "master" ∧ paso ≠ "askedWelcome" ∧ paso ≠ "askedBirthdate" ∧
  paso ≠ "askedOnlyName" ∧ paso ≠ "askedName" ∧ paso ≠ "askedEmail" ∧ paso ≠ "askedSex" ∧
  paso ≠ "askBenefit" ∧ paso ≠ "askedParent" ∧ paso ≠ "askedBirthdateParent" ∧
  paso ≠ "askedFamily" ∧ paso ≠ "end" ∧ paso ≠ "additionalHelp" ∧ paso ≠ "endCotiza" ∧
  paso ≠ "waitForQuestion" ∧ paso ≠ "confirmContinue" ∧ paso ≠ "askedAdmin" ∧
  paso ≠ "askedMaster" ∧ paso ≠ "askedTrainer" ∧ paso ≠ "gandalf" ∧
  paso ≠ "sub_category_selection" ∧ paso ≠ "company_selection" ∧ paso ≠ "document_choice" ∧
  m ≠ "hola" ∧ m ≠ "/start" ∧ m ≠ "chatgpt" ∧ m ≠ "dr seguro"

instance (paso m : String) : Decidable (sinReglaEspecifica paso m) := by
  unfold sinReglaEspecifica; infer_instance

/-- The segmenter loop runs forever on this input: no fuel completes it. -/
def dividirDiverge (maxLength : Nat) (msg : List Char) : Prop :=
  ∀ fuel, dividirFuel maxLength fuel msg = none

/-- A master-flagged admin profile sitting at the role menu. -/
def usuarioMaestro : Usuario where
  step := "askedMaster"
  nombre := "Eva"
  modo := "chatgpt"
  rol := some "admin"
  master := some "ON"
  developer := some "ON"

/- ===================== Lemma section ===================== -/

theorem longitud_dropWhile_le (p : Char → Bool) (s : List Char) :
    (s.dropWhile p).length ≤ s.length := by
  induction s with
  | nil => simp
  | cons x xs ih =>
      by_cases h : p x
      · rw [List.dropWhile_cons_of_pos h]; exact Nat.le_succ_of_le ih
      · rw [List.dropWhile_cons_of_neg h]

theorem longitud_pyStripL_le (s : List Char) : (pyStripL s).length ≤ s.length := by
  unfold pyStripL
  calc ((s.dropWhile esBlanco).reverse.dropWhile esBlanco).reverse.length
      = ((s.dropWhile esBlanco).reverse.dropWhile esBlanco).length := List.length_reverse _
    _ ≤ (s.dropWhile esBlanco).reverse.length := longitud_dropWhile_le _ _
    _ = (s.dropWhile esBlanco).length := List.length_reverse _
    _ ≤ s.length := longitud_dropWhile_le _ _

theorem filtra_dropWhile_blanco (s : List Char) :
    (s.dropWhile esBlanco).filter (fun c => !esBlanco c) = s.filter (fun c => !esBlanco c) := by
  induction s with
  | nil => rfl
  | cons x xs ih =>
      by_cases h : esBlanco x
      · rw [List.dropWhile_cons_of_pos h, ih, List.filter_cons_of_neg]
        simp [h]
      · rw [List.dropWhile_cons_of_neg (by simp [h])]

theorem filtra_pyStripL (s : List Char) :
    (pyStripL s).filter (fun c => !esBlanco c) = s.filter (fun c => !esBlanco c) := by
  unfold pyStripL
  rw [List.filter_reverse, filtra_dropWhile_blanco, List.filter_reverse,
    List.reverse_reverse, filtra_dropWhile_blanco]

theorem rfindAux_cota (c : Char) (l : List Char) (i : Nat) :
    rfindAux c l i = -1 ∨ ((i : Int) ≤ rfindAux c l i ∧ rfindAux c l i < (i : Int) + l.length) := by
  induction l generalizing i with
  | nil => left; rfl
  | cons x xs ih =>
      unfold rfindAux
      rcases ih (i + 1) with h | ⟨h1, h2⟩
      · rw [h]
        simp only [ne_eq, not_true_eq_false, reduceIte]
        by_cases hx : x = c
        · right
          rw [if_pos hx]
          constructor
          · exact le_refl _
          · have : (0 : Int) < (xs.length + 1 : Nat) := by positivity
            simp only [List.length_cons]
            push_cast
            omega
        · left; rw [if_neg hx]
      · right
        have hne : rfindAux c xs (i + 1) ≠ -1 := by
          intro hc
          rw [hc] at h1
          have : (0 : Int) ≤ (i : Int) := by positivity
          omega
        rw [if_pos hne]
        simp only [List.length_cons]
        push_cast at h1 h2 ⊢
        omega

theorem rfindChar_cota (s : List Char) (c : Char) (fin : Nat) :
    rfindChar s c fin = -1 ∨ (0 ≤ rfindChar s c fin ∧ rfindChar s c fin < (fin : Int)) := by
  unfold rfindChar
  rcases rfindAux_cota c (s.take fin) 0 with h | ⟨h1, h2⟩
  · left; exact h
  · right
    refine ⟨by simpa using h1, ?_⟩
    have hl : (s.take fin).length ≤ fin := by
      rw [List.length_take]; exact Nat.min_le_left _ _
    have : ((s.take fin).length : Int) ≤ (fin : Int) := by exact_mod_cast hl
    omega

theorem dividirPaso_longitud (maxLength : Nat) (msg : List Char) :
    (dividirPaso maxLength msg).1.length ≤ maxLength := by
  unfold dividirPaso
  have hcut : ∀ corte2 : Int, corte2 ≤ (maxLength : Int) →
      (pyStripL (msg.take corte2.toNat)).length ≤ maxLength := by
    intro corte2 hc
    calc (pyStripL (msg.take corte2.toNat)).length
        ≤ (msg.take corte2.toNat).length := longitud_pyStripL_le _
      _ ≤ corte2.toNat := by rw [List.length_take]; exact Nat.min_le_left _ _
      _ ≤ maxLength := by omega
  dsimp only
  refine hcut _ ?_
  rcases rfindChar_cota msg ' ' maxLength with h0 | ⟨h0a, h0b⟩
  · rw [if_pos h0]
    rcases rfindChar_cota msg '.' maxLength with h1 | ⟨h1a, h1b⟩
    · rw [h1]
      norm_num
    · split <;> omega
  · rw [if_neg (by omega)]
    split <;> omega

theorem dividirPaso_filtra (maxLength : Nat) (msg : List Char) :
    (dividirPaso maxLength msg).1.filter (fun c => !esBlanco c)
      ++ (dividirPaso maxLength msg).2.filter (fun c => !esBlanco c)
    = msg.filter (fun c => !esBlanco c) := by
  unfold dividirPaso
  dsimp only
  rw [filtra_pyStripL, filtra_pyStripL, ← List.filter_append, List.take_append_drop]

theorem dividirFuel_atascado (maxLength : Nat) (msg : List Char)
    (h1 : msg.length > maxLength) (h2 : (dividirPaso maxLength msg).2 = msg) :
    ∀ fuel, dividirFuel maxLength fuel msg = none := by
  intro fuel
  induction fuel with
  | zero => rfl
  | succ n ih =>
      unfold dividirFuel
      rw [if_pos h1, h2, ih]
      rfl

/-- C2: the claim says the segmenter is total for every maxLength at least 1
with a hard cut at the limit when neither space nor terminator exists.  The
code disagrees: on a message longer than the limit with no space and no
period in the window (here aaaa with limit 3), the cut degenerates to 0, the
loop state repeats and the while loop never terminates, for any fuel; the
second conjunct shows the stuck loop body, whose cut produces the empty
chunk and returns the message unchanged.  The hard-cut fallback the claim
and the code structure intend is unreachable because corte = rfind + 1 is
never -1. -/
theorem C2_dividir_no_termina :
    (∀ fuel, dividirFuel 3 fuel (List.replicate 4 'a') = none) ∧
      dividirPaso 3 (List.replicate 4 'a') = ([], List.replicate 4 'a') := by
  constructor
  · exact dividirFuel_atascado 3 (List.replicate 4 'a') (by decide) (by decide)
  · decide

/-- C3 (counterexample): the claim promises that the final remainder is
always emitted as the last chunk for every text and maxLength at least 1;
on this input (six letters, limit 4, no space and no period) the source
loop never terminates, so no chunk list is ever returned at all. -/
theorem C3_contraejemplo_diverge : dividirDiverge 4 (List.replicate 6 'b') :=
  dividirFuel_atascado 4 (List.replicate 6 'b') (by decide) (by decide)

/-- C3 (amended): whenever the segmenter loop terminates, every returned
chunk has length at most maxLength, the chunk list is non-empty with the
final remainder as last chunk, and the concatenation of the chunks carries
exactly the non-whitespace characters of the input in order (the cut
separators and the per-chunk trimming only drop whitespace). -/
theorem C3_segmentador_parcial (maxLength fuel : Nat) (msg : List Char) (ts : List (List Char))
    (hmax : 1 ≤ maxLength) (h : dividirFuel maxLength fuel msg = some ts) :
    (∀ t ∈ ts, t.length ≤ maxLength) ∧ ts ≠ [] ∧
      ts.flatten.filter (fun c => !esBlanco c) = msg.filter (fun c => !esBlanco c) := by
  induction fuel generalizing msg ts with
  | zero => cases h
  | succ n ih =>
      unfold dividirFuel at h
      by_cases hg : msg.length > maxLength
      · rw [if_pos hg] at h
        cases hrec : dividirFuel maxLength n (dividirPaso maxLength msg).2 with
        | none => rw [hrec] at h; cases h
        | some ts2 =>
            rw [hrec] at h
            simp only [Option.map_some'] at h
            injection h with h
            subst h
            obtain ⟨ha, hb, hc⟩ := ih _ _ hrec
            refine ⟨?_, by simp, ?_⟩
            · intro t ht
              rcases List.mem_cons.mp ht with rfl | ht2
              · exact dividirPaso_longitud _ _
              · exact ha t ht2
            · rw [List.flatten_cons, List.filter_append, hc, dividirPaso_filtra]
      · rw [if_neg hg] at h
        injection h with h
        subst h
        refine ⟨?_, by simp, by simp⟩
        intro t ht
        simp only [List.mem_singleton] at ht
        subst ht
        omega

/-- C3 (witness): a concrete terminating segmentation with its guarantees. -/
theorem C3_testigo :
    (1 ≤ 5 ∧ dividirFuel 5 9 "ab cd ef".data = some [['a', 'b'], ['c', 'd', ' ', 'e', 'f']]) ∧
      ((∀ t ∈ [['a', 'b'], ['c', 'd', ' ', 'e', 'f']], t.length ≤ 5) ∧
        ([['a', 'b'], ['c', 'd', ' ', 'e', 'f']] : List (List Char)) ≠ [] ∧
        ([['a', 'b'], ['c', 'd', ' ', 'e', 'f']] : List (List Char)).flatten.filter
            (fun c => !esBlanco c)
          = "ab cd ef".data.filter (fun c => !esBlanco c)) :=
  ⟨⟨by decide, by decide⟩,
   C3_segmentador_parcial 5 9 "ab cd ef".data [['a', 'b'], ['c', 'd', ' ', 'e', 'f']]
     (by decide) (by decide)⟩

theorem dictGet_insert_mismo (d : Dict) (k v : String) :
    dictGet (dictInsert d k v) k = some v := by
  induction d with
  | nil => simp [dictInsert, dictGet]
  | cons p resto ih =>
      obtain ⟨k0, v0⟩ := p
      by_cases h : k0 = k
      · simp [dictInsert, h, dictGet]
      · simp [dictInsert, h, dictGet, ih]

theorem dictMem_insert_mismo (d : Dict) (k v : String) :
    dictMem (dictInsert d k v) k = true := by
  simp [dictMem, dictGet_insert_mismo]

theorem dictGet_insert_otro (d : Dict) (k v k2 : String) (hne : k2 ≠ k) :
    dictGet (dictInsert d k v) k2 = dictGet d k2 := by
  induction d with
  | nil => simp [dictInsert, dictGet, Ne.symm hne]
  | cons p resto ih =>
      obtain ⟨k0, v0⟩ := p
      by_cases h0 : k0 = k
      · subst h0
        simp [dictInsert, dictGet, Ne.symm hne]
      · simp [dictInsert, h0, dictGet, ih]

theorem dictMem_insert_de (d : Dict) (k v k2 : String) (h : dictMem d k2 = true) :
    dictMem (dictInsert d k v) k2 = true := by
  by_cases hk : k2 = k
  · subst hk; exact dictMem_insert_mismo _ _ _
  · unfold dictMem at h ⊢
    rwa [dictGet_insert_otro _ _ _ _ hk]

theorem dictMem_insert_casos (d : Dict) (k v k2 : String)
    (h : dictMem (dictInsert d k v) k2 = true) : k2 = k ∨ dictMem d k2 = true := by
  by_cases hk : k2 = k
  · left; exact hk
  · right
    unfold dictMem at h ⊢
    rwa [dictGet_insert_otro _ _ _ _ hk] at h

theorem foldl_opciones_mono (g : String → String) (ops : List String) :
    ∀ (acc : Dict) (k : String), dictMem acc k = true →
      dictMem (ops.foldl (fun a o => dictInsert a (pyLower o) (g o)) acc) k = true := by
  induction ops with
  | nil => intro acc k h; exact h
  | cons o resto ih =>
      intro acc k h
      rw [List.foldl_cons]
      exact ih _ _ (dictMem_insert_de _ _ _ _ h)

theorem foldl_opciones_nuevo (g : String → String) (ops : List String) :
    ∀ (acc : Dict) (o : String), o ∈ ops →
      dictMem (ops.foldl (fun a o => dictInsert a (pyLower o) (g o)) acc) (pyLower o) = true := by
  induction ops with
  | nil => intro acc o h; cases h
  | cons o2 resto ih =>
      intro acc o h
      rw [List.foldl_cons]
      rcases List.mem_cons.mp h with h1 | h2
      · subst h1
        exact foldl_opciones_mono _ _ _ _ (dictMem_insert_mismo _ _ _)
      · exact ih _ o h2

theorem foldl_opciones_origen (g : String → String) (ops : List String) :
    ∀ (acc : Dict) (k : String),
      dictMem (ops.foldl (fun a o => dictInsert a (pyLower o) (g o)) acc) k = true →
      dictMem acc k = true ∨ k ∈ ops.map pyLower := by
  induction ops with
  | nil => intro acc k h; left; exact h
  | cons o resto ih =>
      intro acc k h
      rw [List.foldl_cons] at h
      rcases ih _ _ h with h1 | h2
      · rcases dictMem_insert_casos _ _ _ _ h1 with h3 | h4
        · right; simp [h3]
        · left; exact h4
      · right
        simp only [List.map_cons, List.mem_cons]
        right
        exact h2

/-- C9: the history shortcut table is monotonically additive with lowered
keys: registering a menu never removes a key; every registered option is
reachable under its lowered form; every new key comes from a lowered
option; and after registering menu A and then menu B all keys of both
menus resolve. -/
theorem C9_historial_aditivo (h : Dict) (a b : List String) (pa pb : PasoDefault) :
    (∀ k, dictMem h k = true → dictMem (agregar_opciones h a pa) k = true) ∧
    (∀ o, o ∈ a → dictMem (agregar_opciones h a pa) (pyLower o) = true) ∧
    (∀ k, dictMem (agregar_opciones h a pa) k = true →
      dictMem h k = true ∨ k ∈ a.map pyLower) ∧
    (∀ o, o ∈ a ∨ o ∈ b →
      dictMem (agregar_opciones (agregar_opciones h a pa) b pb) (pyLower o) = true) := by
  refine ⟨?_, ?_, ?_, ?_⟩
  · intro k hk
    exact foldl_opciones_mono _ a h k hk
  · intro o ho
    exact foldl_opciones_nuevo _ a h o ho
  · intro k hk
    exact foldl_opciones_origen _ a h k hk
  · intro o ho
    rcases ho with ho | ho
    · exact foldl_opciones_mono _ b _ _ (foldl_opciones_nuevo _ a h o ho)
    · exact foldl_opciones_nuevo _ b _ o ho

/-- C9 (witness): registering the admin menu and then the role menu keeps
the earlier keys alive and resolves both menus. -/
theorem C9_testigo :
    dictMem [("hola", "start")] "hola" = true ∧
    "Riesgos" ∈ ["Riesgos", "Soporte al Cliente"] ∧
    dictMem
      (agregar_opciones (agregar_opciones [("hola", "start")]
        ["Riesgos", "Soporte al Cliente"] (.paso "askedAdmin"))
        ["Usuario", "Master"] (.paso "askedMaster"))
      (pyLower "Riesgos") = true :=
  ⟨by decide, by decide,
   (C9_historial_aditivo [("hola", "start")] ["Riesgos", "Soporte al Cliente"]
      ["Usuario", "Master"] (.paso "askedAdmin") (.paso "askedMaster")).2.2.2
     "Riesgos" (Or.inl (by decide))⟩

theorem dchar_espec (k : Nat) : esDigito (dchar k) = true ∧ valDigito (dchar k) = k % 10 := by
  have h : k % 10 < 10 := Nat.mod_lt _ (by decide)
  unfold dchar
  generalize hm : k % 10 = r at h ⊢
  interval_cases r <;> exact ⟨by decide, by decide⟩

theorem pad2_digitos (n : Nat) : ∀ c ∈ pad2 n, esDigito c = true := by
  intro c hc
  simp only [pad2, List.mem_cons, List.not_mem_nil, or_false] at hc
  rcases hc with rfl | rfl <;> exact (dchar_espec _).1

theorem pad4_digitos (n : Nat) : ∀ c ∈ pad4 n, esDigito c = true := by
  intro c hc
  simp only [pad4, List.mem_cons, List.not_mem_nil, or_false] at hc
  rcases hc with rfl | rfl | rfl | rfl <;> exact (dchar_espec _).1

theorem valorDe_pad2 (n : Nat) (h : n < 100) : valorDe (pad2 n) = n := by
  have h1 := (dchar_espec (n / 10)).2
  have h2 := (dchar_espec n).2
  simp only [valorDe, pad2, List.foldl_cons, List.foldl_nil, h1, h2]
  omega

theorem valorDe_pad4 (n : Nat) (h : n < 10000) : valorDe (pad4 n) = n := by
  have h1 := (dchar_espec (n / 1000)).2
  have h2 := (dchar_espec (n / 100)).2
  have h3 := (dchar_espec (n / 10)).2
  have h4 := (dchar_espec n).2
  simp only [valorDe, pad4, List.foldl_cons, List.foldl_nil, h1, h2, h3, h4]
  omega

theorem leeDigitos_exacto (ds resto : List Char)
    (h1 : ∀ c ∈ ds, esDigito c = true)
    (h2 : ∀ c, resto.head? = some c → esDigito c = false) :
    leeDigitos (ds ++ resto) = (ds, resto) := by
  induction ds with
  | nil =>
      cases resto with
      | nil => rfl
      | cons c cs =>
          have hc := h2 c rfl
          simp [leeDigitos, hc]
  | cons d ds2 ih =>
      have hd := h1 d (by simp)
      have ihr := ih (fun c hc => h1 c (by simp [hc])) 
      simp [leeDigitos, hd, ihr]

theorem leeDigitos_todo (ds : List Char) (h1 : ∀ c ∈ ds, esDigito c = true) :
    leeDigitos ds = (ds, []) := by
  have := leeDigitos_exacto ds [] h1 (fun c hc => by cases hc)
  simpa using this

theorem leeDigitos_son_digitos (s : List Char) : ∀ c ∈ (leeDigitos s).1, esDigito c = true := by
  induction s with
  | nil => simp [leeDigitos]
  | cons x xs ih =>
      by_cases hx : esDigito x
      · intro c hc
        simp only [leeDigitos, hx, if_pos] at hc
        rcases List.mem_cons.mp hc with rfl | hc2
        · exact hx
        · exact ih c hc2
      · intro c hc
        simp [leeDigitos, hx] at hc

theorem valorDe_aux (ds : List Char) (h : ∀ c ∈ ds, esDigito c = true) :
    ∀ a : Nat, ds.foldl (fun x c => 10 * x + valDigito c) a < (a + 1) * 10 ^ ds.length := by
  induction ds with
  | nil => intro a; simp
  | cons c cs ih =>
      intro a
      have hc : valDigito c ≤ 9 := by
        have hd := h c (by simp)
        unfold esDigito at hd
        unfold valDigito
        simp only [Bool.and_eq_true, decide_eq_true_eq] at hd
        omega
      rw [List.foldl_cons]
      calc cs.foldl (fun x c => 10 * x + valDigito c) (10 * a + valDigito c)
          < (10 * a + valDigito c + 1) * 10 ^ cs.length :=
            ih (fun c hc => h c (by simp [hc])) _
        _ ≤ (a + 1) * 10 ^ (c :: cs).length := by
            simp only [List.length_cons, pow_succ]
            have : 10 * a + valDigito c + 1 ≤ (a + 1) * 10 := by omega
            calc (10 * a + valDigito c + 1) * 10 ^ cs.length
                ≤ (a + 1) * 10 * 10 ^ cs.length := Nat.mul_le_mul_right _ this
              _ = (a + 1) * (10 ^ cs.length * 10) := by ring

theorem valorDe_cota (ds : List Char) (h : ∀ c ∈ ds, esDigito c = true) :
    valorDe ds < 10 ^ ds.length := by
  have := valorDe_aux ds h 0
  simpa [valorDe] using this

theorem diasDelMes_le31 (m y : Nat) : diasDelMes m y ≤ 31 := by
  unfold diasDelMes
  split_ifs <;> omega

theorem strptimeDMY_acepta (sep : Char) (d m y : Nat)
    (hsep : esDigito sep = false)
    (hd1 : 1 ≤ d) (hd2 : d ≤ diasDelMes m y)
    (hm1 : 1 ≤ m) (hm2 : m ≤ 12) (hy1 : 1 ≤ y) (hy2 : y ≤ 9999) :
    strptimeDMY sep (pad2 d ++ sep :: (pad2 m ++ sep :: pad4 y)) = some (d, m, y) := by
  have hd31 : d ≤ 31 := le_trans hd2 (diasDelMes_le31 m y)
  have hlee1 : leeDigitos (pad2 d ++ sep :: (pad2 m ++ sep :: pad4 y))
      = (pad2 d, sep :: (pad2 m ++ sep :: pad4 y)) :=
    leeDigitos_exacto _ _ (pad2_digitos d)
      (by intro c hc; injection hc with hc; subst hc; exact hsep)
  have hlee2 : leeDigitos (pad2 m ++ sep :: pad4 y) = (pad2 m, sep :: pad4 y) :=
    leeDigitos_exacto _ _ (pad2_digitos m)
      (by intro c hc; injection hc with hc; subst hc; exact hsep)
  have hlee3 : leeDigitos (pad4 y) = (pad4 y, []) := leeDigitos_todo _ (pad4_digitos y)
  have hv1 : valorDe (pad2 d) = d := valorDe_pad2 d (by omega)
  have hv2 : valorDe (pad2 m) = m := valorDe_pad2 m (by omega)
  have hv3 : valorDe (pad4 y) = y := valorDe_pad4 y (by omega)
  unfold strptimeDMY
  rw [hlee1]
  dsimp only
  rw [hv1, if_pos (show ((pad2 d).length = 1 ∨ (pad2 d).length = 2) ∧ 1 ≤ d ∧ d ≤ 31 from
    ⟨Or.inr rfl, hd1, hd31⟩)]
  rw [if_pos rfl]
  rw [hlee2]
  dsimp only
  rw [hv2, if_pos (show ((pad2 m).length = 1 ∨ (pad2 m).length = 2) ∧ 1 ≤ m ∧ m ≤ 12 from
    ⟨Or.inr rfl, hm1, hm2⟩)]
  rw [if_pos rfl]
  rw [hlee3]
  dsimp only
  rw [hv3, if_pos (show (pad4 y).length = 4 ∧ ([] : List Char) = [] from ⟨rfl, rfl⟩)]
  rw [if_pos ⟨hy1, hd2⟩]

theorem strptimeDMY_sano (sep : Char) (s : List Char) (d m y : Nat)
    (h : strptimeDMY sep s = some (d, m, y)) :
    1 ≤ d ∧ d ≤ diasDelMes m y ∧ 1 ≤ m ∧ m ≤ 12 ∧ 1 ≤ y ∧ y ≤ 9999 := by
  unfold strptimeDMY at h
  dsimp only at h
  split at h
  case isFalse => cases h
  case isTrue hcond1 =>
    split at h
    case h_1 => cases h
    case h_2 c1 s1 =>
      split at h
      case isFalse => cases h
      case isTrue hc1 =>
        split at h
        case isFalse => cases h
        case isTrue hcond2 =>
          split at h
          case h_1 => cases h
          case h_2 c2 s2 =>
            split at h
            case isFalse => cases h
            case isTrue hc2 =>
              split at h
              case isFalse => cases h
              case isTrue hcond3 =>
                split at h
                case isFalse => cases h
                case isTrue hcond4 =>
                  injection h with h
                  simp only [Prod.mk.injEq] at h
                  obtain ⟨hd, hm, hy⟩ := h
                  subst hd
                  subst hm
                  subst hy
                  have hyb := valorDe_cota _ (leeDigitos_son_digitos c2)
                  rw [hcond3.1] at hyb
                  exact ⟨hcond1.2.1, hcond4.2, hcond2.2.1, hcond2.2.2, hcond4.1, by omega⟩

theorem strptimeDMY_sep_distinto (sep sep2 : Char) (d m y : Nat)
    (hsep : esDigito sep = false) (hne : sep ≠ sep2)
    (hd1 : 1 ≤ d) (hd31 : d ≤ 31) :
    strptimeDMY sep2 (pad2 d ++ sep :: (pad2 m ++ sep :: pad4 y)) = none := by
  have hlee1 : leeDigitos (pad2 d ++ sep :: (pad2 m ++ sep :: pad4 y))
      = (pad2 d, sep :: (pad2 m ++ sep :: pad4 y)) :=
    leeDigitos_exacto _ _ (pad2_digitos d)
      (by intro c hc; injection hc with hc; subst hc; exact hsep)
  have hv1 : valorDe (pad2 d) = d := valorDe_pad2 d (by omega)
  unfold strptimeDMY
  rw [hlee1]
  dsimp only
  rw [hv1, if_pos (show ((pad2 d).length = 1 ∨ (pad2 d).length = 2) ∧ 1 ≤ d ∧ d ≤ 31 from
    ⟨Or.inr rfl, hd1, hd31⟩)]
  rw [if_neg hne]

/-- C8: the date validator accepts exactly the day-month-year strings the
underlying date arithmetic allows, treating the dash and slash separators
identically, and fecha_sql renders every accepted date in year-month-day
form: the four anchor evaluations of the claim; soundness, every accepted
string denotes a date the datetime constructor allows; and completeness,
every such calendar date is accepted under both separators and rendered in
SQL form. -/
theorem C8_validador_fechas :
    (validar_fecha "25-12-2024" = some (25, 12, 2024)
      ∧ fecha_sql "25-12-2024" = some "2024-12-25")
    ∧ (validar_fecha "25/12/2024" = some (25, 12, 2024)
      ∧ fecha_sql "25/12/2024" = some "2024-12-25")
    ∧ (validar_fecha "2024-12-25" = none ∧ fecha_sql "2024-12-25" = none)
    ∧ (validar_fecha "31/02/2024" = none ∧ fecha_sql "31/02/2024" = none)
    ∧ (∀ s d m y, validar_fecha s = some (d, m, y) → fechaCalendarioValida d m y = true)
    ∧ (∀ d m y, fechaCalendarioValida d m y = true →
        validar_fecha (renderFecha '-' d m y) = some (d, m, y)
        ∧ validar_fecha (renderFecha '/' d m y) = some (d, m, y)
        ∧ fecha_sql (renderFecha '-' d m y) = some (sqlDeFecha d m y)
        ∧ fecha_sql (renderFecha '/' d m y) = some (sqlDeFecha d m y)) := by
  refine ⟨⟨by decide, by decide⟩, ⟨by decide, by decide⟩, ⟨by decide, by decide⟩,
    ⟨by decide, by decide⟩, ?_, ?_⟩
  · intro s d m y h
    unfold validar_fecha at h
    simp only [fechaCalendarioValida, decide_eq_true_eq]
    cases hh : strptimeDMY '-' s.data with
    | some f =>
        rw [hh] at h
        injection h with h
        subst h
        exact strptimeDMY_sano '-' s.data d m y hh
    | none =>
        rw [hh] at h
        exact strptimeDMY_sano '/' s.data d m y h
  · intro d m y hcal
    have hb := hcal
    simp only [fechaCalendarioValida, decide_eq_true_eq] at hb
    obtain ⟨hd1, hd2, hm1, hm2, hy1, hy2⟩ := hb
    have hdata1 : (renderFecha '-' d m y).data = pad2 d ++ '-' :: (pad2 m ++ '-' :: pad4 y) := rfl
    have hdata2 : (renderFecha '/' d m y).data = pad2 d ++ '/' :: (pad2 m ++ '/' :: pad4 y) := rfl
    have hg : strptimeDMY '-' (pad2 d ++ '-' :: (pad2 m ++ '-' :: pad4 y)) = some (d, m, y) :=
      strptimeDMY_acepta '-' d m y (by decide) hd1 hd2 hm1 hm2 hy1 hy2
    have hs : strptimeDMY '/' (pad2 d ++ '/' :: (pad2 m ++ '/' :: pad4 y)) = some (d, m, y) :=
      strptimeDMY_acepta '/' d m y (by decide) hd1 hd2 hm1 hm2 hy1 hy2
    have hx : strptimeDMY '-' (pad2 d ++ '/' :: (pad2 m ++ '/' :: pad4 y)) = none :=
      strptimeDMY_sep_distinto '/' '-' d m y (by decide) (by decide) hd1
        (le_trans hd2 (diasDelMes_le31 m y))
    refine ⟨?_, ?_, ?_, ?_⟩
    · unfold validar_fecha
      rw [hdata1, hg]
    · unfold validar_fecha
      rw [hdata2, hx]
      dsimp only
      rw [hs]
    · unfold fecha_sql
      rw [hdata1, hg]
    · unfold fecha_sql
      rw [hdata2, hx]
      dsimp only
      rw [hs]


/-- C8 (witness): the universal conjuncts applied to the leap date
29-02-2024 rendered with the slash separator. -/
theorem C8_testigo :
    fechaCalendarioValida 29 2 2024 = true ∧
      validar_fecha (renderFecha '/' 29 2 2024) = some (29, 2, 2024) :=
  ⟨by decide, (C8_validador_fechas.2.2.2.2.2 29 2 2024 (by decide)).2.1⟩

/-- C1: the claim says every collaborator failure inside a rule degrades to
a user-facing apology and the turn runs to completion, in particular a
PDF-render failure at askedFamily.  The code disagrees for the render:
generar_pdf re-raises HTTPError and URLError, so when the render HTTP call
fails at askedFamily the turn aborts right after the first status message,
with no apology and with the rest of the turn skipped (first conjunct).
The empty-id failure of the quote gateway does behave as claimed: two
apologies are emitted and the turn completes, ending at waitForQuestion in
chatgpt mode (remaining conjuncts). -/
theorem C1_pdf_falla_aborta :
    falloDe (turno entornoPdfCae (some usuarioFamilia) eventoContinuar) =
      some (.errorHttp,
        [.texto "Perfecto, en este momento le estoy enviando un cuadro de cotización para que proceda con su revisión."])
    ∧ accionesDe (turno entornoCotizaVacia (some usuarioFamilia) eventoContinuar) =
      some [.texto "Perfecto, en este momento le estoy enviando un cuadro de cotización para que proceda con su revisión.",
            .texto "Hubo un error al procesar tu cotización.",
            .texto "Por otro lado, le estoy enviando otras cotizaciones que puedan adaptarse a su presupuesto",
            .texto "Hubo un error al procesar tu cotización.",
            .texto "Tu cotización ha sido procesada con éxito. ¿Tienes alguna otra pregunta para mí?"]
    ∧ pasoGuardado (turno entornoCotizaVacia (some usuarioFamilia) eventoContinuar) =
      some "waitForQuestion"
    ∧ modoGuardado (turno entornoCotizaVacia (some usuarioFamilia) eventoContinuar) =
      some "chatgpt" := by
  refine ⟨by decide, by decide, by decide, by decide⟩

/-- C7: the claim says each role keyword at askedMaster switches the role
and the mode and routes to the entry step.  The code only routes: the
lines that look like role and mode updates (1144, 1145, 1153, 1155, 1158)
use a double equals, a comparison with no effect, so an admin profile
keeps rol admin and modo chatgpt after usuario and asociado, and keeps rol
admin after desarrollador, whose modo = gandalf is the one real mode
assignment; the step targets of the claim are all confirmed. -/
theorem C7_asignaciones_perdidas :
    (pasoGuardado (turno entornoNulo (some usuarioMaestro) { chatId := "5", texto := "usuario" }) = some "askedWelcome"
      ∧ rolGuardado (turno entornoNulo (some usuarioMaestro) { chatId := "5", texto := "usuario" }) = some (some "admin")
      ∧ modoGuardado (turno entornoNulo (some usuarioMaestro) { chatId := "5", texto := "usuario" }) = some "chatgpt")
    ∧ (pasoGuardado (turno entornoNulo (some usuarioMaestro) { chatId := "5", texto := "asociado" }) = some "askedAdmin"
      ∧ rolGuardado (turno entornoNulo (some usuarioMaestro) { chatId := "5", texto := "asociado" }) = some (some "admin")
      ∧ modoGuardado (turno entornoNulo (some usuarioMaestro) { chatId := "5", texto := "asociado" }) = some "chatgpt")
    ∧ (pasoGuardado (turno entornoNulo (some usuarioMaestro) { chatId := "5", texto := "desarrollador" }) = some "waitForQuestion"
      ∧ rolGuardado (turno entornoNulo (some usuarioMaestro) { chatId := "5", texto := "desarrollador" }) = some (some "admin")
      ∧ modoGuardado (turno entornoNulo (some usuarioMaestro) { chatId := "5", texto := "desarrollador" }) = some "gandalf")
    ∧ pasoGuardado (turno entornoNulo (some usuarioMaestro) { chatId := "5", texto := "master" }) = some "askedTrainer" := by
  exact ⟨⟨by decide, by decide, by decide⟩, ⟨by decide, by decide, by decide⟩,
    ⟨by decide, by decide, by decide⟩, by decide⟩

/-- C4 (counterexample): a well-formed inbound event whose turn produces no
outbound action at all: a profile at additionalHelp in normal mode with an
unrecognized text hits the bare pass of line 1055, so the claim that only a
malformed event suppresses all output is false. -/
theorem C4_contraejemplo_silencio :
    accionesDe (turno entornoNulo
      (some { step := "additionalHelp", modo := "normal", nombre := "Eva" })
      { chatId := "5", texto := "xyz" }) = some []
    ∧ pasoGuardado (turno entornoNulo
      (some { step := "additionalHelp", modo := "normal", nombre := "Eva" })
      { chatId := "5", texto := "xyz" }) = some "additionalHelp" := by
  exact ⟨by decide, by decide⟩

/-- C5 (counterexample): a first Hola from an unseen sender does not land in
the unnamed askedWelcome branch: the display name first plus space plus last
is never empty, so the named branch runs, the turn asks for the birth date
and the stored step is askedBirthdate, not askedWelcome. -/
theorem C5_contraejemplo_paso :
    pasoGuardado (turno entornoNulo none
      { chatId := "111", texto := "Hola", firstName := "Ana", lastName := "Diaz" })
      = some "askedBirthdate"
    ∧ accionesDe (turno entornoNulo none
      { chatId := "111", texto := "Hola", firstName := "Ana", lastName := "Diaz" })
      = some [.texto (saludoLargo "Ana Diaz"),
              .texto "¿Sería tan amable de indicarme su fecha de nacimiento?"] := by
  exact ⟨by decide, by decide⟩

/-- C6 (counterexample): a master-flagged profile stored at askedBirthdate
is not routed to the role menu: the master override of line 715 requires
the resolved step to be start, so the date re-prompt rule handles the
message and the step stays askedBirthdate. -/
theorem C6_contraejemplo_paso :
    pasoGuardado (turno entornoNulo
      (some { step := "askedBirthdate", modo := "normal", master := some "ON", nombre := "Eva" })
      { chatId := "5", texto := "zzz" }) = some "askedBirthdate"
    ∧ accionesDe (turno entornoNulo
      (some { step := "askedBirthdate", modo := "normal", master := some "ON", nombre := "Eva" })
      { chatId := "5", texto := "zzz" })
      = some [.texto "La fecha no es correcta, por favor ingresa una fecha valida (DD/MM/AAAA)."] := by
  exact ⟨by decide, by decide⟩

/-- C10 (counterexample): at confirmContinue the input chatgpt does not end
the turn at finalizado: the step-independent chatgpt rule fires first and
jumps to waitForQuestion, so the claim quantified over every input other
than cotiza is false. -/
theorem C10_contraejemplo_chatgpt :
    pasoGuardado (turno entornoNulo
      (some { step := "confirmContinue", modo := "chatgpt", nombre := "Eva" })
      { chatId := "5", texto := "chatgpt" }) = some "waitForQuestion"
    ∧ accionesDe (turno entornoNulo
      (some { step := "confirmContinue", modo := "chatgpt", nombre := "Eva" })
      { chatId := "5", texto := "chatgpt" })
      = some [.texto "Estoy aqui para responder tus preguntas. Adelante."] := by
  exact ⟨by decide, by decide⟩

/-- C4 (amended): when the resolved step matches none of the dispatch
branches and the message is none of the step-independent keywords, the
universal fallback fires: the turn replies with the restart-guidance text
and resets the profile to step start and mode normal.  The second half of
the original claim is false (see the counterexample): some matched
branches also produce no outbound action, namely additionalHelp with
unrecognized text outside chatgpt mode, waitForQuestion on continuar, and
askedMaster with no keyword match, so a well-formed event can be silent
too. -/
theorem C4_regla_por_defecto (env : Entorno) (u : Usuario) (ev : Evento)
    (h1 : ev.chatId ≠ "") (h2 : ev.texto ≠ "") (h3 : ev.chatId ≠ numero_bot)
    (h4 : ev.boton = none)
    (h : sinReglaEspecifica
      (pasoConMaster (u.master.getD "OFF") (pasoHistorial u (pyLower ev.texto)))
      (pyLower ev.texto)) :
    turno env (some u) ev =
      .ok ⟨some { u with step := "start", modo := "normal" },
           [.texto "No entiendo tu mensaje. Escribe *hola* para empezar de nuevo."]⟩ := by
  obtain ⟨n1, n2, n3, n4, n5, n6, n7, n8, n9, n10, n11, n12, n13, n14, n15, n16, n17,
    n18, n19, n20, n21, n22, n23, n24, n25, n26, n27, n28⟩ := h
  simp only [turno, h4, Option.getD_none]
  rw [if_neg (by simp [h1, h2]), if_neg h3]
  simp [despacho, enviar_mensaje_telegram, n1, n2, n3, n4, n5, n6, n7, n8, n9, n10,
    n11, n12, n13, n14, n15, n16, n17, n18, n19, n20, n21, n22, n23, n24, n25, n26, n27, n28]

theorem nombrePerfil_no_vacio (fn ln : String) : fn ++ " " ++ ln ≠ "" := by
  intro h
  have hlen := congrArg String.length h
  rw [String.length_append, String.length_append] at hlen
  have hx : (" " : String).length = 1 := rfl
  have hy : ("" : String).length = 0 := rfl
  omega

theorem opcionesMaster_no_vacia (d : String) : opcionesMaster d ≠ [] := by
  unfold opcionesMaster
  split <;> simp

/-- C5 (amended): a first Hola from a sender with no stored profile
creates a profile and emits exactly two actions, but they are the welcome
text followed by the birth-date request and the stored step is
askedBirthdate: the display name is first_name plus a space plus
last_name, which is never the empty string, so the unnamed askedWelcome
branch of the claim is unreachable from a transport event and the named
user branch runs instead. -/
theorem C5_primer_hola (env : Entorno) (ev : Evento)
    (h1 : ev.chatId ≠ "") (h3 : ev.chatId ≠ numero_bot)
    (h2 : ev.texto = "Hola") (h4 : ev.boton = none) :
    turno env none ev =
      .ok ⟨some { nombre := ev.firstName ++ " " ++ ev.lastName,
                  step := "askedBirthdate",
                  poliza := some "Salud" },
           [.texto (saludoLargo (ev.firstName ++ " " ++ ev.lastName)),
            .texto "¿Sería tan amable de indicarme su fecha de nacimiento?"]⟩ := by
  have hpn : ev.firstName ++ " " ++ ev.lastName ≠ "" := nombrePerfil_no_vacio _ _
  have hlow : pyLower "Hola" = "hola" := rfl
  simp only [turno, h2, h4, Option.getD_none, hlow]
  rw [if_neg (by simp [h1]), if_neg h3]
  simp [despacho, pasoHistorial, pasoConMaster, nombreEfectivo, enviar_mensaje_telegram, hpn]

/-- C6 (amended): a master-flagged profile is dispatched by the master
rule, with the role menu presented and the step set to askedMaster,
exactly when the step resolved through the history table is start (the
stored step itself, or any registered shortcut such as hola mapping to
start); other stored steps are dispatched by their own rules, so the
original regardless-of-stored-step claim is false (see the
counterexample). -/
theorem C6_master_en_inicio (env : Entorno) (u : Usuario) (ev : Evento)
    (h1 : ev.chatId ≠ "") (h2 : ev.texto ≠ "") (h3 : ev.chatId ≠ numero_bot)
    (h4 : ev.boton = none)
    (hm : u.master = some "ON")
    (hp : pasoHistorial u (pyLower ev.texto) = "start") :
    turno env (some u) ev =
      .ok ⟨some { u with
                  poliza := some "Salud",
                  cotiza := "",
                  historial := some (agregar_opciones (u.historial.getD [])
                    (opcionesMaster (u.developer.getD "OFF")) (.paso "askedMaster")),
                  step := "askedMaster" },
           [.texto (saludoCorto (nombreEfectivo u (ev.firstName ++ " " ++ ev.lastName))),
            .menu "¿Con que rol quieres interactuar conmigo?"
              (opcionesMaster (u.developer.getD "OFF"))]⟩ := by
  simp only [turno, h4, Option.getD_none]
  rw [if_neg (by simp [h1, h2]), if_neg h3]
  simp [despacho, pasoConMaster, hm, hp, enviar_mensaje_telegram, opcionesMaster_no_vacia]

/-- C10 (amended): at confirmContinue in chatgpt mode with no history
shortcut for the input, every input other than cotiza and the
step-independent keywords chatgpt and dr seguro, including si, ends the
turn at step finalizado and mode normal with the farewell as the only
reply (the si arm runs first but the else arm overwrites its text, step
and mode); cotiza instead ends the turn at step start and mode normal.
The original claim is false for the keywords chatgpt and dr seguro (see
the counterexample). -/
theorem C10_confirmContinue_cierra (env : Entorno) (u : Usuario) (ev : Evento)
    (h1 : ev.chatId ≠ "") (h2 : ev.texto ≠ "") (h3 : ev.chatId ≠ numero_bot)
    (h4 : ev.boton = none)
    (hs : u.step = "confirmContinue") (hmo : u.modo = "chatgpt") (hh : u.historial = none)
    (hm1 : pyLower ev.texto ≠ "chatgpt") (hm2 : pyLower ev.texto ≠ "dr seguro") :
    (pyLower ev.texto ≠ "cotiza" →
      turno env (some u) ev =
        .ok ⟨some { u with step := "finalizado", modo := "normal" },
             [.texto "¡Gracias por contactarnos! Si necesitas más ayuda en el futuro, no dudes en escribirnos."]⟩)
    ∧ (pyLower ev.texto = "cotiza" →
      turno env (some u) ev =
        .ok ⟨some { u with step := "start", modo := "normal" },
             [.texto "¡Seguro! Podemos volver a cotizar."]⟩) := by
  constructor
  · intro hc
    by_cases hsi : pyLower ev.texto = "si"
    · simp only [turno, h4, Option.getD_none]
      rw [if_neg (by simp [h1, h2]), if_neg h3]
      simp [despacho, pasoHistorial, pasoConMaster, hh, hs, hmo, hm1, hm2, hc, hsi,
        enviar_mensaje_telegram]
    · simp only [turno, h4, Option.getD_none]
      rw [if_neg (by simp [h1, h2]), if_neg h3]
      simp [despacho, pasoHistorial, pasoConMaster, hh, hs, hmo, hm1, hm2, hc, hsi,
        enviar_mensaje_telegram]
  · intro hc
    simp only [turno, h4, Option.getD_none]
    rw [if_neg (by simp [h1, h2]), if_neg h3]
    simp [despacho, pasoHistorial, pasoConMaster, hh, hs, hmo, hm1, hm2, hc,
      enviar_mensaje_telegram]


/-- C4 (witness): the fallback applied to an unknown stored step. -/
theorem C4_testigo :
    sinReglaEspecifica
        (pasoConMaster ((({ step := "limbo" } : Usuario)).master.getD "OFF")
          (pasoHistorial { step := "limbo" } (pyLower "xyz"))) (pyLower "xyz")
    ∧ turno entornoNulo (some { step := "limbo" }) { chatId := "9", texto := "xyz" } =
      .ok ⟨some { step := "start", modo := "normal" },
           [.texto "No entiendo tu mensaje. Escribe *hola* para empezar de nuevo."]⟩ :=
  ⟨by decide,
   C4_regla_por_defecto entornoNulo { step := "limbo" } { chatId := "9", texto := "xyz" }
     (by decide) (by decide) (by decide) rfl (by decide)⟩

/-- C5 (witness): the first Hola of a concrete new sender. -/
theorem C5_testigo :
    ("111" : String) ≠ "" ∧
      turno entornoNulo none
        { chatId := "111", texto := "Hola", firstName := "Ana", lastName := "Diaz" } =
      .ok ⟨some { nombre := "Ana" ++ " " ++ "Diaz",
                  step := "askedBirthdate",
                  poliza := some "Salud" },
           [.texto (saludoLargo ("Ana" ++ " " ++ "Diaz")),
            .texto "¿Sería tan amable de indicarme su fecha de nacimiento?"]⟩ :=
  ⟨by decide,
   C5_primer_hola entornoNulo
     { chatId := "111", texto := "Hola", firstName := "Ana", lastName := "Diaz" }
     (by decide) (by decide) rfl rfl⟩

/-- C6 (witness): a master-flagged profile at stored step start. -/
theorem C6_testigo :
    ({ step := "start", master := some "ON", nombre := "Bo" } : Usuario).master = some "ON" ∧
      turno entornoNulo (some { step := "start", master := some "ON", nombre := "Bo" })
        { chatId := "7", texto := "hey" } =
      .ok ⟨some { step := "askedMaster",
                  nombre := "Bo",
                  master := some "ON",
                  poliza := some "Salud",
                  cotiza := "",
                  historial := some (agregar_opciones [] (opcionesMaster "OFF")
                    (.paso "askedMaster")) },
           [.texto (saludoCorto "Bo"),
            .menu "¿Con que rol quieres interactuar conmigo?" (opcionesMaster "OFF")]⟩ :=
  ⟨rfl,
   C6_master_en_inicio entornoNulo { step := "start", master := some "ON", nombre := "Bo" }
     { chatId := "7", texto := "hey" }
     (by decide) (by decide) (by decide) rfl rfl (by decide)⟩

/-- C10 (witness): a free text other than cotiza ends the turn with the
farewell at finalizado. -/
theorem C10_testigo :
    pyLower "adios" ≠ "cotiza" ∧
      turno entornoNulo
        (some { step := "confirmContinue", modo := "chatgpt", nombre := "Eva" })
        { chatId := "5", texto := "adios" } =
      .ok ⟨some { step := "finalizado", modo := "normal", nombre := "Eva" },
           [.texto "¡Gracias por contactarnos! Si necesitas más ayuda en el futuro, no dudes en escribirnos."]⟩ :=
  ⟨by decide,
   (C10_confirmContinue_cierra entornoNulo
      { step := "confirmContinue", modo := "chatgpt", nombre := "Eva" }
      { chatId := "5", texto := "adios" }
      (by decide) (by decide) (by decide) rfl rfl rfl rfl (by decide) (by decide)).1
     (by decide)⟩
